import Mathlib

/-!
Verification of the PrintScore deterministic scoring core against its
specification.  The definitions below are a shallow embedding of the POST
handler in `src/app/api/analyze/route.ts` (the deterministic analyze route):
feature extraction (lines 20–36), the four sub-score ladders (lines 47–93),
the rounded weighted total (lines 96–101), tier selection (lines 103–128),
the edge-crowding heuristic (lines 130–169) and the issue narratives
(lines 171–179).
-/

namespace PrintScore

/-- A downsampled raw pixel buffer as produced by the feature extractor
(`sharp(buffer).resize(100, 100, fit: outside).raw()`): actual width and
height, channel count, and the flat byte data in row-major order. -/
structure EdgeSample where
  width : Nat
  height : Nat
  channels : Nat
  data : List Nat
  deriving DecidableEq

/-- The input of the scoring core: extension token (lower-cased), whether the
MIME type begins with "image/", byte size, pixel dimensions, and the optional
downsampled pixel buffer. -/
structure Asset where
  format_token : String
  content_is_raster : Bool
  byte_size : Nat
  width_px : Nat
  height_px : Nat
  edge_sample : Option EdgeSample
  deriving DecidableEq

/-- What the HTTP handler has in hand before building the asset: the raw
decoder results.  `meta` is the decoded (width, height) metadata, `none`
when decoding threw (route.ts lines 25–31 catch that and leave 0/0). -/
structure RawInput where
  format_token : String
  content_is_raster : Bool
  byte_size : Nat
  meta : Option (Nat × Nat)
  sample : Option EdgeSample

/-- Dimension extraction, route.ts lines 20–36: a raster MIME type reads the
decoder metadata (0 on failure or absent fields); otherwise a "pdf" extension
substitutes the nominal 2550×3300 grid; otherwise dimensions stay 0. -/
def extractDims (content_is_raster : Bool) (format_token : String)
    (meta : Option (Nat × Nat)) : Nat × Nat :=
  if content_is_raster then
    match meta with
    | some wh => wh
    | none => (0, 0)
  else if format_token = "pdf" then (2550, 3300)
  else (0, 0)

/-- The layout check (route.ts lines 130–169) resamples the buffer only when
the MIME type begins with "image/"; any other asset has no edge sample. -/
def extractSample (content_is_raster : Bool) (sample : Option EdgeSample) :
    Option EdgeSample :=
  if content_is_raster then sample else none

/-- Assemble the asset the scoring core consumes from the raw decoder output. -/
def mkAsset (inp : RawInput) : Asset :=
  { format_token := inp.format_token
    content_is_raster := inp.content_is_raster
    byte_size := inp.byte_size
    width_px := (extractDims inp.content_is_raster inp.format_token inp.meta).1
    height_px := (extractDims inp.content_is_raster inp.format_token inp.meta).2
    edge_sample := extractSample inp.content_is_raster inp.sample }

/-- Resolution sub-score, route.ts lines 47–61.  The source compares the IEEE
double `width_px * height_px / 1000000` against 4, 2, 1; double division by
the exactly representable constant 1000000 is monotone and exact at each
threshold (4000000 / 1000000 evaluates to exactly 4, and so on), so the
comparisons coincide with these integer-product thresholds for every input. -/
def resolution_score (width_px height_px : Nat) : Nat :=
  if 2400 ≤ width_px ∧ 3000 ≤ height_px then 100
  else if 4000000 ≤ width_px * height_px then 85
  else if 2000000 ≤ width_px * height_px then 65
  else if 1000000 ≤ width_px * height_px then 45
  else 20

/-- Size sub-score, route.ts lines 63–75.  The source compares the double
`file_size / (1024*1024)` against 5, 10, 15; as for the resolution ladder this
is exactly the integer comparison against 5, 10, 15 MiB. -/
def size_score (byte_size : Nat) : Nat :=
  if byte_size ≤ 5 * 1024 * 1024 then 100
  else if byte_size ≤ 10 * 1024 * 1024 then 85
  else if byte_size ≤ 15 * 1024 * 1024 then 60
  else 30

/-- Color sub-score, route.ts lines 77–82: 70 unless the extension token is
"pdf", which scores 50. -/
def color_score (format_token : String) : Nat :=
  if format_token = "pdf" then 50 else 70

/-- Format sub-score, route.ts lines 84–93. -/
def format_score (format_token : String) : Nat :=
  if format_token = "png" ∨ format_token = "jpg" ∨ format_token = "jpeg" then 100
  else if format_token = "pdf" then 90
  else 50

/-- Weighted rounded total, route.ts lines 96–101.  The source computes
`Math.round(r*0.40 + s*0.30 + c*0.20 + f*0.10)` in IEEE doubles; over all 120
reachable sub-score combinations (r ∈ {100,85,65,45,20}, s ∈ {100,85,60,30},
c ∈ {70,50}, f ∈ {100,90,50}) that double expression rounds to exactly
round-half-up of the rational (4r+3s+2c+f)/10, which is the integer
(4r+3s+2c+f+5)/10 used here. -/
def total_score (a : Asset) : Nat :=
  (4 * resolution_score a.width_px a.height_px + 3 * size_score a.byte_size
    + 2 * color_score a.format_token + format_score a.format_token + 5) / 10

/-- Tier name, route.ts lines 103–128: inclusive lower bounds, highest first. -/
def tierOf (total : Nat) : String :=
  if 90 ≤ total then "Print-Ready"
  else if 75 ≤ total then "Great"
  else if 60 ≤ total then "Needs Optimization"
  else if 40 ≤ total then "High Risk"
  else "Print Failure Likely"

/-- Tier display color token, route.ts lines 103–128. -/
def tierColor (total : Nat) : String :=
  if 90 ≤ total then "#00D1C7"
  else if 75 ≤ total then "#2DE2E6"
  else if 60 ≤ total then "#F5A623"
  else if 40 ≤ total then "#FF008C"
  else "#6B7280"

/-- Tier summary sentence, route.ts lines 103–128. -/
def tierSummary (total : Nat) : String :=
  if 90 ≤ total then
    "Your design is print-ready! Sharp, properly sized, and formatted correctly."
  else if 75 ≤ total then
    "Your design looks good. Minor optimizations could help perfect it."
  else if 60 ≤ total then
    "Your design needs some adjustments before printing for best results."
  else if 40 ≤ total then
    "Your design has significant issues that may cause print problems."
  else
    "Your design will likely fail to print properly. Consider recreating at higher quality."

/-- The five (tier, verbatim summary) bands of route.ts lines 103–128,
highest first. -/
def tierTable : List (String × String) :=
  [("Print-Ready",
    "Your design is print-ready! Sharp, properly sized, and formatted correctly."),
   ("Great",
    "Your design looks good. Minor optimizations could help perfect it."),
   ("Needs Optimization",
    "Your design needs some adjustments before printing for best results."),
   ("High Risk",
    "Your design has significant issues that may cause print problems."),
   ("Print Failure Likely",
    "Your design will likely fail to print properly. Consider recreating at higher quality.")]

/-- Band thickness of the edge check, route.ts lines 141–142:
`Math.floor(100 * 3 / 100)`, a fixed 3 pixels whatever the sample size. -/
def edgePixels : Nat := 100 * 3 / 100

/-- Whether (x, y) lies in the border band, route.ts lines 147–148.  The
source tests `x >= info.width - edgePixels` over JS numbers; when the width is
below `edgePixels` that bound is negative and the test always holds, which
truncated Nat subtraction reproduces (the bound becomes 0). -/
def inEdgeBand (w h x y : Nat) : Bool :=
  decide (x < edgePixels) || decide (w - edgePixels ≤ x)
    || decide (y < edgePixels) || decide (h - edgePixels ≤ y)

/-- Byte read from the sample buffer, route.ts lines 150–152.  An
out-of-range JS read gives `undefined`, and `undefined < 250` is false; the
default 255 fails the same `< 250` test. -/
def sampleAt (s : EdgeSample) (i : Nat) : Nat := s.data.getD i 255

/-- Whether the pixel at (x, y) is non-near-white, route.ts lines 149–154:
one of the first three channels below 250. -/
def darkAt (s : EdgeSample) (x y : Nat) : Bool :=
  decide (sampleAt s ((y * s.width + x) * s.channels) < 250)
    || decide (sampleAt s ((y * s.width + x) * s.channels + 1) < 250)
    || decide (sampleAt s ((y * s.width + x) * s.channels + 2) < 250)

/-- The edge-crowding scan, route.ts lines 144–161: row-major scan of the
actual sample, flagging the first border-band pixel that is not near-white.
The source breaks out of both loops on the first hit; the boolean outcome
equals this `any` over all pixels. -/
def edgeActivity (s : EdgeSample) : Bool :=
  (List.range s.height).any fun y =>
    (List.range s.width).any fun x =>
      inEdgeBand s.width s.height x y && darkAt s x y

/-- Default layout narrative, route.ts line 131. -/
def goodMarginsMsg : String := "Good margins detected. No bleed issues found."

/-- Crowding layout narrative, route.ts line 164. -/
def edgeCrowdingMsg : String :=
  "Potential edge crowding detected. Consider adding safe margin or bleed area."

/-- Layout narrative, route.ts lines 130–169: the crowding string when a
sample is present and the scan flags it, the default string otherwise. -/
def layoutIssue (sample : Option EdgeSample) : String :=
  match sample with
  | some s => if edgeActivity s then edgeCrowdingMsg else goodMarginsMsg
  | none => goodMarginsMsg

/-- Decides `2 ^ e ≤ w / 300` over the integer exponent e. -/
def dblPowLe (e : Int) (w : Nat) : Bool :=
  if 0 ≤ e then decide (300 * 2 ^ e.toNat ≤ w) else decide (300 ≤ w * 2 ^ (-e).toNat)

/-- Fuel-driven base-2 logarithm: `log2fuel fuel n = ⌊log2 n⌋` whenever
`fuel ≥ n ≥ 1`.  Structural recursion on the fuel keeps it kernel-reducible. -/
def log2fuel : Nat → Nat → Nat
  | 0, _ => 0
  | fuel + 1, n => if n ≤ 1 then 0 else log2fuel fuel (n / 2) + 1

/-- `⌊log2 n⌋` for n ≥ 1 (0 at 0). -/
def natLog2 (n : Nat) : Nat := log2fuel n n

/-- The unique e with `2 ^ e ≤ w / 300 < 2 ^ (e+1)` (for w ≥ 1): one of
`log2 w - 8` and `log2 w - 9`, since 2^8 ≤ 300 < 2^9. -/
def dblExp (w : Nat) : Int :=
  if dblPowLe ((natLog2 w : Int) - 8) w then (natLog2 w : Int) - 8
  else (natLog2 w : Int) - 9

/-- Round p / q to the nearest integer, ties to even (IEEE default rounding). -/
def rndHalfEven (p q : Nat) : Nat :=
  if q < 2 * (p % q) then p / q + 1
  else if 2 * (p % q) < q then p / q
  else if p / q % 2 = 0 then p / q else p / q + 1

/-- The IEEE-754 binary64 value nearest to w / 300 (what the JS expression
`width_px / 300` evaluates to), returned as a pair (M, s) denoting M / 2^s:
the 53-bit significand M is the exact quotient scaled into [2^52, 2^53] and
rounded half-to-even. -/
def dbl300 (w : Nat) : Nat × Int :=
  if w = 0 then (0, 0)
  else
    let s : Int := 52 - dblExp w
    if 0 ≤ s then (rndHalfEven (w * 2 ^ s.toNat) 300, s)
    else (rndHalfEven w (300 * 2 ^ (-s).toNat), s)

/-- The double M / 2^s as an exact rational. -/
def dblVal (Ms : Nat × Int) : ℚ :=
  if 0 ≤ Ms.2 then (Ms.1 : ℚ) / 2 ^ Ms.2.toNat else (Ms.1 : ℚ) * 2 ^ (-Ms.2).toNat

/-- JS `(width_px / 300).toFixed(1)`, route.ts line 173: the integer n with
n/10 nearest to the double (ties pick the larger n), rendered with one
decimal digit. -/
def toFixed1of300 (w : Nat) : String :=
  let Ms := dbl300 w
  let n :=
    if Ms.2 ≤ 0 then 10 * Ms.1 * 2 ^ (-Ms.2).toNat
    else (10 * Ms.1 + 2 ^ (Ms.2.toNat - 1)) / 2 ^ Ms.2.toNat
  toString (n / 10) ++ "." ++ toString (n % 10)

/-- Resolution narrative, route.ts line 173.  The separator in the source
file is the two characters U+00C3 U+2014 ("Ã" and an em dash, bytes
c3 83 e2 80 94 in the file) — a double-encoded multiplication sign — not the
multiplication sign U+00D7 itself. -/
def resolutionIssue (a : Asset) : String :=
  "Sharp up to " ++ toFixed1of300 a.width_px ++ " Ã— "
    ++ toFixed1of300 a.height_px ++ " inches at 300 DPI."

/-- The resolution narrative as §4.3 of the specification words it, for
comparison with `resolutionIssue`: identical except that the separator is the
actual multiplication sign U+00D7. -/
def specResolutionIssue (a : Asset) : String :=
  "Sharp up to " ++ toFixed1of300 a.width_px ++ " × "
    ++ toFixed1of300 a.height_px ++ " inches at 300 DPI."

/-- Color narrative, route.ts lines 174–176. -/
def colorIssue (format_token : String) : String :=
  if format_token = "pdf" then
    "CMYK status unknown for PDFs. Confirm with print provider."
  else "RGB color mode detected. Convert to CMYK for accurate print colors."

/-- Format narrative, route.ts line 178 (JS `toUpperCase` agrees with
`String.toUpper` on the ASCII extension tokens involved). -/
def formatIssue (format_token : String) : String :=
  format_token.toUpper ++ " format. "
    ++ (if format_token = "pdf" then "Vector quality preserved. Good for print."
        else "Raster image format.")

/-- Everything route.ts lines 184–196 put in the response that the scoring
core computes: sub-scores, total, tier triple, safe print size (exact
rationals; the JS doubles are exactly these values whenever the division is
exact, in particular at every value examined below), and the four issue
narratives. -/
structure AnalyzeResult where
  resolution : Nat
  size : Nat
  color : Nat
  format : Nat
  total : Nat
  tier : String
  tier_color : String
  summary : String
  max_print_width_in : ℚ
  max_print_height_in : ℚ
  issue_resolution : String
  issue_color : String
  issue_layout : String
  issue_format : String
  deriving DecidableEq

/-- The scoring core as one total function over the asset. -/
def analyze (a : Asset) : AnalyzeResult :=
  { resolution := resolution_score a.width_px a.height_px
    size := size_score a.byte_size
    color := color_score a.format_token
    format := format_score a.format_token
    total := total_score a
    tier := tierOf (total_score a)
    tier_color := tierColor (total_score a)
    summary := tierSummary (total_score a)
    max_print_width_in := (a.width_px : ℚ) / 300
    max_print_height_in := (a.height_px : ℚ) / 300
    issue_resolution := resolutionIssue a
    issue_color := colorIssue a.format_token
    issue_layout := layoutIssue a.edge_sample
    issue_format := formatIssue a.format_token }

/-- The reference asset of §8 of the specification. -/
def refAsset : Asset :=
  { format_token := "png"
    content_is_raster := true
    byte_size := 3 * 1024 * 1024
    width_px := 3000
    height_px := 4500
    edge_sample := none }

/-- A 3×3, 3-channel, all-white sample. -/
def whiteSample : EdgeSample :=
  { width := 3, height := 3, channels := 3, data := List.replicate 27 255 }

/-- A raster-MIME input whose file name nevertheless ends in ".pdf". -/
def pdfRasterInput : RawInput :=
  { format_token := "pdf"
    content_is_raster := true
    byte_size := 1000
    meta := some (100, 100)
    sample := some whiteSample }

/-- A plain non-raster PDF input. -/
def pdfPlainInput : RawInput :=
  { format_token := "pdf"
    content_is_raster := false
    byte_size := 4 * 1024 * 1024
    meta := none
    sample := none }

/-- A raster asset whose dimensions could not be extracted. -/
def zeroAsset : Asset :=
  { format_token := "bmp"
    content_is_raster := true
    byte_size := 500
    width_px := 0
    height_px := 0
    edge_sample := none }

/-! Helper lemmas shared by the claim theorems. -/

theorem inEdgeBand_iff (w h x y : Nat) :
    inEdgeBand w h x y = true ↔ (x < 3 ∨ w ≤ x + 3 ∨ y < 3 ∨ h ≤ y + 3) := by
  have he : edgePixels = 3 := rfl
  unfold inEdgeBand
  rw [he]
  simp only [Bool.or_eq_true, decide_eq_true_eq]
  omega

theorem darkAt_iff (s : EdgeSample) (x y : Nat) :
    darkAt s x y = true ↔
      (sampleAt s ((y * s.width + x) * s.channels) < 250 ∨
       sampleAt s ((y * s.width + x) * s.channels + 1) < 250 ∨
       sampleAt s ((y * s.width + x) * s.channels + 2) < 250) := by
  unfold darkAt
  simp only [Bool.or_eq_true, decide_eq_true_eq, or_assoc]

theorem edgeActivity_iff (s : EdgeSample) :
    edgeActivity s = true ↔
      ∃ y, y < s.height ∧ ∃ x, x < s.width ∧
        ((x < 3 ∨ s.width ≤ x + 3 ∨ y < 3 ∨ s.height ≤ y + 3) ∧
         (sampleAt s ((y * s.width + x) * s.channels) < 250 ∨
          sampleAt s ((y * s.width + x) * s.channels + 1) < 250 ∨
          sampleAt s ((y * s.width + x) * s.channels + 2) < 250)) := by
  unfold edgeActivity
  simp only [List.any_eq_true, List.mem_range, Bool.and_eq_true, inEdgeBand_iff,
    darkAt_iff]

theorem size_score_mem (b : Nat) : size_score b ∈ ([100, 85, 60, 30] : List Nat) := by
  unfold size_score
  split_ifs <;> simp

theorem color_score_mem (tok : String) : color_score tok ∈ ([70, 50] : List Nat) := by
  unfold color_score
  split_ifs <;> simp

theorem format_score_mem (tok : String) :
    format_score tok ∈ ([100, 90, 50] : List Nat) := by
  unfold format_score
  split_ifs <;> simp

theorem resolution_score_le (w h : Nat) : resolution_score w h ≤ 100 := by
  unfold resolution_score
  split_ifs <;> norm_num

theorem size_score_le (b : Nat) : size_score b ≤ 100 := by
  unfold size_score
  split_ifs <;> norm_num

theorem color_score_le (tok : String) : color_score tok ≤ 70 := by
  unfold color_score
  split_ifs <;> norm_num

theorem format_score_le (tok : String) : format_score tok ≤ 100 := by
  unfold format_score
  split_ifs <;> norm_num

theorem total_score_le_94 (a : Asset) : total_score a ≤ 94 := by
  have hr := resolution_score_le a.width_px a.height_px
  have hs := size_score_le a.byte_size
  have hc := color_score_le a.format_token
  have hf := format_score_le a.format_token
  unfold total_score
  omega

theorem tierOf_mem (t : Nat) :
    tierOf t ∈ (["Print-Ready", "Great", "Needs Optimization", "High Risk",
      "Print Failure Likely"] : List String) := by
  unfold tierOf
  split_ifs <;> simp

theorem layoutIssue_mem (sample : Option EdgeSample) :
    layoutIssue sample ∈ ([goodMarginsMsg, edgeCrowdingMsg] : List String) := by
  cases sample with
  | none => simp [layoutIssue]
  | some s =>
      have h : layoutIssue (some s) =
          if edgeActivity s then edgeCrowdingMsg else goodMarginsMsg := rfl
      rw [h]
      split_ifs <;> simp

theorem resolution_score_mono {w1 h1 w2 h2 : Nat} (hw : w1 ≤ w2) (hh : h1 ≤ h2) :
    resolution_score w1 h1 ≤ resolution_score w2 h2 := by
  have hp : w1 * h1 ≤ w2 * h2 := Nat.mul_le_mul hw hh
  unfold resolution_score
  set p1 := w1 * h1 with hp1
  set p2 := w2 * h2 with hp2
  split_ifs <;> omega

theorem size_score_anti {b1 b2 : Nat} (h : b2 ≤ b1) : size_score b1 ≤ size_score b2 := by
  unfold size_score
  split_ifs <;> omega

/-! The claim theorems. -/

/-- Claim C1: the reference asset (3000×4500 px, 3 MiB, "png", raster) scores
resolution 100, size 100, color 70, format 100, total 94, tier "Print-Ready",
and safe print size 10.0 × 15.0 inches. -/
theorem C1_reference_case :
    resolution_score refAsset.width_px refAsset.height_px = 100 ∧
    size_score refAsset.byte_size = 100 ∧
    color_score refAsset.format_token = 70 ∧
    format_score refAsset.format_token = 100 ∧
    total_score refAsset = 94 ∧
    tierOf (total_score refAsset) = "Print-Ready" ∧
    (analyze refAsset).max_print_width_in = 10 ∧
    (analyze refAsset).max_print_height_in = 15 := by
  refine ⟨by decide, by decide, by decide, by decide, by decide, by decide, ?_, ?_⟩ <;>
    · simp only [analyze, refAsset]
      norm_num

/-- Claim C2: tier selection is lower-bound inclusive, highest first: totals
90, 75, 60, 40 pick "Print-Ready", "Great", "Needs Optimization", "High Risk";
totals 89, 74, 59, 39 pick the next tier down; and every total up to 100 picks
exactly one of the five (tier, verbatim summary) bands (`tierOf` and
`tierSummary` are functions, so the selected band is unique). -/
theorem C2_tier_bands :
    tierOf 90 = "Print-Ready" ∧ tierOf 89 = "Great" ∧
    tierOf 75 = "Great" ∧ tierOf 74 = "Needs Optimization" ∧
    tierOf 60 = "Needs Optimization" ∧ tierOf 59 = "High Risk" ∧
    tierOf 40 = "High Risk" ∧ tierOf 39 = "Print Failure Likely" ∧
    ∀ t : Nat, t ≤ 100 → (tierOf t, tierSummary t) ∈ tierTable := by
  refine ⟨by decide, by decide, by decide, by decide, by decide, by decide,
    by decide, by decide, ?_⟩
  intro t ht
  unfold tierOf tierSummary tierTable
  split_ifs <;> simp

theorem C2_tier_bands_witness : (tierOf 95, tierSummary 95) ∈ tierTable :=
  C2_tier_bands.2.2.2.2.2.2.2.2 95 (by norm_num)

/-- Claim C4: the edge-crowding narrative for a present sample is the
crowding string exactly when some pixel of the actual sample lies within the
constant 3-pixel band of one of the four borders and has one of its first
three channels below 250; otherwise (in particular for an all-white sample,
or when non-white content sits strictly outside the band) it is the
good-margins string, and an absent sample always gets the good-margins
string. -/
theorem C4_edge_crowding (s : EdgeSample) :
    (layoutIssue (some s) = edgeCrowdingMsg ↔
      ∃ y, y < s.height ∧ ∃ x, x < s.width ∧
        ((x < 3 ∨ s.width ≤ x + 3 ∨ y < 3 ∨ s.height ≤ y + 3) ∧
         (sampleAt s ((y * s.width + x) * s.channels) < 250 ∨
          sampleAt s ((y * s.width + x) * s.channels + 1) < 250 ∨
          sampleAt s ((y * s.width + x) * s.channels + 2) < 250))) ∧
    (layoutIssue (some s) = goodMarginsMsg ↔
      ¬ ∃ y, y < s.height ∧ ∃ x, x < s.width ∧
        ((x < 3 ∨ s.width ≤ x + 3 ∨ y < 3 ∨ s.height ≤ y + 3) ∧
         (sampleAt s ((y * s.width + x) * s.channels) < 250 ∨
          sampleAt s ((y * s.width + x) * s.channels + 1) < 250 ∨
          sampleAt s ((y * s.width + x) * s.channels + 2) < 250))) ∧
    layoutIssue none = goodMarginsMsg := by
  have h1 : ∀ b : Bool,
      ((if b then edgeCrowdingMsg else goodMarginsMsg) = edgeCrowdingMsg ↔ b = true) ∧
      ((if b then edgeCrowdingMsg else goodMarginsMsg) = goodMarginsMsg ↔ ¬ b = true) := by
    intro b
    cases b <;> exact ⟨by decide, by decide⟩
  have h2 := edgeActivity_iff s
  have h3 : layoutIssue (some s) =
      if edgeActivity s then edgeCrowdingMsg else goodMarginsMsg := rfl
  rw [h3]
  exact ⟨((h1 (edgeActivity s)).1).trans h2,
    ((h1 (edgeActivity s)).2).trans (not_congr h2), rfl⟩

/-- Claim C6: the size ladder has inclusive upper bounds at exactly 5, 10 and
15 MiB: each boundary byte count keeps the higher score and one byte over
drops to the next. -/
theorem C6_size_boundaries :
    size_score (5 * 1024 * 1024) = 100 ∧ size_score (5 * 1024 * 1024 + 1) = 85 ∧
    size_score (10 * 1024 * 1024) = 85 ∧ size_score (10 * 1024 * 1024 + 1) = 60 ∧
    size_score (15 * 1024 * 1024) = 60 ∧ size_score (15 * 1024 * 1024 + 1) = 30 := by
  decide

/-- Claim C3 counterexample: the substitution of 2550×3300 is NOT
unconditional on the extension token "pdf".  A raster-MIME input whose file
name ends in ".pdf" keeps its decoded 100×100 dimensions (so its resolution
sub-score is 20, not 100) and keeps its edge sample. -/
theorem C3_counterexample :
    (mkAsset pdfRasterInput).format_token = "pdf" ∧
    (mkAsset pdfRasterInput).width_px = 100 ∧
    (mkAsset pdfRasterInput).height_px = 100 ∧
    ¬ ((mkAsset pdfRasterInput).width_px = 2550 ∧
       (mkAsset pdfRasterInput).height_px = 3300) ∧
    (mkAsset pdfRasterInput).edge_sample ≠ none ∧
    resolution_score (mkAsset pdfRasterInput).width_px
      (mkAsset pdfRasterInput).height_px = 20 := by
  decide

/-- Claim C3 amended: for every NON-RASTER asset (MIME type not beginning
"image/") whose extension token is "pdf", the dimensions 2550×3300 are
substituted regardless of byte size and decoded metadata, no edge sample is
produced, and consequently resolution = 100, color = 50 and format = 90. -/
theorem C3_pdf_substitution (inp : RawInput) (hf : inp.format_token = "pdf")
    (hr : inp.content_is_raster = false) :
    (mkAsset inp).width_px = 2550 ∧
    (mkAsset inp).height_px = 3300 ∧
    (mkAsset inp).edge_sample = none ∧
    resolution_score (mkAsset inp).width_px (mkAsset inp).height_px = 100 ∧
    color_score (mkAsset inp).format_token = 50 ∧
    format_score (mkAsset inp).format_token = 90 := by
  have hw : (mkAsset inp).width_px = 2550 := by
    simp [mkAsset, extractDims, hf, hr]
  have hh : (mkAsset inp).height_px = 3300 := by
    simp [mkAsset, extractDims, hf, hr]
  have hs : (mkAsset inp).edge_sample = none := by
    simp [mkAsset, extractSample, hr]
  have hft : (mkAsset inp).format_token = "pdf" := hf
  rw [hw, hh, hs, hft]
  refine ⟨rfl, rfl, rfl, by decide, by decide, by decide⟩

theorem C3_pdf_substitution_witness :
    (mkAsset pdfPlainInput).width_px = 2550 ∧
    (mkAsset pdfPlainInput).height_px = 3300 ∧
    (mkAsset pdfPlainInput).edge_sample = none ∧
    resolution_score (mkAsset pdfPlainInput).width_px
      (mkAsset pdfPlainInput).height_px = 100 ∧
    color_score (mkAsset pdfPlainInput).format_token = 50 ∧
    format_score (mkAsset pdfPlainInput).format_token = 90 :=
  C3_pdf_substitution pdfPlainInput rfl rfl

/-- Claim C5 counterexample: a larger megapixel product can LOWER the
resolution sub-score, because the top clause checks the two axes separately:
2400×3000 (7.2 MP) scores 100 while 10000×721 (7.21 MP) scores 85. -/
theorem C5_counterexample :
    2400 * 3000 < 10000 * 721 ∧
    resolution_score 2400 3000 = 100 ∧
    resolution_score 10000 721 = 85 ∧
    resolution_score 10000 721 < resolution_score 2400 3000 := by
  decide

/-- Claim C5 amended: growing the two dimensions componentwise (which grows
the megapixel product) never decreases the resolution sub-score, and
decreasing the byte size never decreases the size sub-score. -/
theorem C5_monotonicity :
    (∀ w1 h1 w2 h2 : Nat, w1 ≤ w2 → h1 ≤ h2 →
      resolution_score w1 h1 ≤ resolution_score w2 h2) ∧
    (∀ b1 b2 : Nat, b2 ≤ b1 → size_score b1 ≤ size_score b2) :=
  ⟨fun _ _ _ _ hw hh => resolution_score_mono hw hh,
   fun _ _ h => size_score_anti h⟩

theorem C5_monotonicity_witness :
    resolution_score 1000 1000 ≤ resolution_score 2000 1500 ∧
    size_score (6 * 1024 * 1024) ≤ size_score (4 * 1024 * 1024) :=
  ⟨C5_monotonicity.1 1000 1000 2000 1500 (by norm_num) (by norm_num),
   C5_monotonicity.2 (6 * 1024 * 1024) (4 * 1024 * 1024) (by norm_num)⟩

/-- Claim C7: the core never fails on zero dimensions — the analysis of an
asset with width 0 and height 0 is still fully produced (`analyze` is a total
function), with the lowest resolution sub-score 20 and a 0.0 × 0.0 safe print
size, while the remaining sub-scores, the total, the tier and the narratives
take their usual values. -/
theorem C7_zero_dimensions (a : Asset) (hw : a.width_px = 0) (hh : a.height_px = 0) :
    (analyze a).resolution = 20 ∧
    (analyze a).max_print_width_in = 0 ∧
    (analyze a).max_print_height_in = 0 ∧
    (analyze a).size ∈ ([100, 85, 60, 30] : List Nat) ∧
    (analyze a).color ∈ ([70, 50] : List Nat) ∧
    (analyze a).format ∈ ([100, 90, 50] : List Nat) ∧
    (analyze a).total ≤ 94 ∧
    (analyze a).tier ∈ (["Print-Ready", "Great", "Needs Optimization", "High Risk",
      "Print Failure Likely"] : List String) ∧
    (analyze a).issue_layout ∈ ([goodMarginsMsg, edgeCrowdingMsg] : List String) := by
  refine ⟨?_, ?_, ?_, size_score_mem _, color_score_mem _, format_score_mem _,
    total_score_le_94 _, tierOf_mem _, layoutIssue_mem _⟩
  · show resolution_score a.width_px a.height_px = 20
    rw [hw, hh]
    decide
  · show (a.width_px : ℚ) / 300 = 0
    rw [hw]
    norm_num
  · show (a.height_px : ℚ) / 300 = 0
    rw [hh]
    norm_num

theorem C7_zero_dimensions_witness :
    (analyze zeroAsset).resolution = 20 ∧
    (analyze zeroAsset).max_print_width_in = 0 ∧
    (analyze zeroAsset).max_print_height_in = 0 ∧
    (analyze zeroAsset).size ∈ ([100, 85, 60, 30] : List Nat) ∧
    (analyze zeroAsset).color ∈ ([70, 50] : List Nat) ∧
    (analyze zeroAsset).format ∈ ([100, 90, 50] : List Nat) ∧
    (analyze zeroAsset).total ≤ 94 ∧
    (analyze zeroAsset).tier ∈ (["Print-Ready", "Great", "Needs Optimization",
      "High Risk", "Print Failure Likely"] : List String) ∧
    (analyze zeroAsset).issue_layout ∈ ([goodMarginsMsg, edgeCrowdingMsg] : List String) :=
  C7_zero_dimensions zeroAsset rfl rfl

/-- Claim C8: the scoring core is deterministic — two assets that agree on
every input field get identical analyses (sub-scores, total, tier triple,
safe print size and all four narratives). -/
theorem C8_deterministic (a b : Asset)
    (h1 : a.format_token = b.format_token)
    (h2 : a.content_is_raster = b.content_is_raster)
    (h3 : a.byte_size = b.byte_size)
    (h4 : a.width_px = b.width_px)
    (h5 : a.height_px = b.height_px)
    (h6 : a.edge_sample = b.edge_sample) :
    analyze a = analyze b := by
  have hab : a = b := by
    cases a
    cases b
    simp_all
  rw [hab]

theorem C8_deterministic_witness : analyze refAsset = analyze refAsset :=
  C8_deterministic refAsset refAsset rfl rfl rfl rfl rfl rfl

/-- Claim C9: the resolution narrative does format both dimensions with the
same one-decimal rule and carries the "at 300 DPI" suffix, but its separator
is NOT the multiplication sign: the source string holds the double-encoded
characters U+00C3 U+2014, so at the reference asset the code produces
"Sharp up to 10.0 Ã— 15.0 inches at 300 DPI." instead of the specified
"Sharp up to 10.0 × 15.0 inches at 300 DPI.". -/
theorem C9_narrative_separator :
    resolutionIssue refAsset = "Sharp up to 10.0 Ã— 15.0 inches at 300 DPI." ∧
    specResolutionIssue refAsset = "Sharp up to 10.0 × 15.0 inches at 300 DPI." ∧
    resolutionIssue refAsset ≠ specResolutionIssue refAsset := by
  refine ⟨?_, ?_, ?_⟩ <;> decide

/-- Claim C10: no asset can total more than 94 (the color sub-score is capped
at 70), and every non-raster "pdf" asset totals between 68 and 89, so it is
never "Print-Ready" and never below "Needs Optimization". -/
theorem C10_total_cap :
    (∀ a : Asset, total_score a ≤ 94) ∧
    (∀ inp : RawInput, inp.format_token = "pdf" → inp.content_is_raster = false →
      68 ≤ total_score (mkAsset inp) ∧ total_score (mkAsset inp) ≤ 89 ∧
      tierOf (total_score (mkAsset inp)) ≠ "Print-Ready" ∧
      (tierOf (total_score (mkAsset inp)) = "Great" ∨
       tierOf (total_score (mkAsset inp)) = "Needs Optimization")) := by
  refine ⟨total_score_le_94, ?_⟩
  intro inp hf hr
  have hw : (mkAsset inp).width_px = 2550 := by
    simp [mkAsset, extractDims, hf, hr]
  have hh : (mkAsset inp).height_px = 3300 := by
    simp [mkAsset, extractDims, hf, hr]
  have hft : (mkAsset inp).format_token = "pdf" := hf
  have hsz := size_score_mem (mkAsset inp).byte_size
  unfold total_score
  rw [hw, hh, hft]
  have h1 : resolution_score 2550 3300 = 100 := by decide
  have h2 : color_score "pdf" = 50 := by decide
  have h3 : format_score "pdf" = 90 := by decide
  rw [h1, h2, h3]
  simp only [List.mem_cons, List.mem_singleton, List.not_mem_nil, or_false] at hsz
  rcases hsz with h | h | h | h <;> rw [h] <;> exact ⟨by norm_num, by norm_num,
    by decide, by decide⟩

theorem C10_total_cap_witness :
    total_score refAsset ≤ 94 ∧
    (68 ≤ total_score (mkAsset pdfPlainInput) ∧
     total_score (mkAsset pdfPlainInput) ≤ 89 ∧
     tierOf (total_score (mkAsset pdfPlainInput)) ≠ "Print-Ready" ∧
     (tierOf (total_score (mkAsset pdfPlainInput)) = "Great" ∨
      tierOf (total_score (mkAsset pdfPlainInput)) = "Needs Optimization")) :=
  ⟨C10_total_cap.1 refAsset, C10_total_cap.2 pdfPlainInput rfl rfl⟩

end PrintScore
